import Mathlib

/-!
Verification of the similarity-analysis core of the `mirrorroid_sales`
repository (`backend/services/analysis_service.py` and
`backend/api/analysis.py`), shallowly embedded in Lean 4.

Modelling conventions:
* Python `float` / SQL `Decimal` values are modelled as `ℚ` (exact
  arithmetic; the code's decimal literals `0.5`, `0.8`, `0.15`, `0.001`
  become the exact rationals `1/2`, `4/5`, `3/20`, `1/1000`).
* A Python `Dict[str, float]` is modelled as an association list
  `List (String × ℚ)` in insertion order; lookup returns the first
  binding, matching the uniqueness of keys in a Python dict.
* Reference/location records carry exactly the numeric columns their
  SQLAlchemy model classes declare (as `Option ℚ`, NULL being `none`);
  `x or 0` on a declared attribute is `Option.getD 0`.  Reading an
  attribute the model class does NOT declare raises `AttributeError` in
  Python; `_extract_features` is therefore embedded as an
  `Except String _` computation over an attribute-existence view
  (`FeatureAttrs`), and `analyze_similarity` propagates the exception,
  as does the endpoint's `try/except`.
* `AnalysisRequest.max_results` is an unconstrained Python `int`,
  modelled as `ℤ`; the API's `candidates[:max_results]` is Python slice
  semantics (`pySlice`): a negative bound keeps all but the last |n|.
* The SQLAlchemy query of `_get_candidate_locations` is modelled as a
  filter over an explicit in-memory list of `LocationData` rows; a SQL
  comparison against a NULL column is not satisfied (the row is dropped),
  matching SQL three-valued logic.
* Python's stable `list.sort(key=..., reverse=True)` is modelled by
  `List.insertionSort` with the relation "has greater-or-equal score":
  any stable sort produces this exact output list.
* Wall-clock duration (`time.time()`) is not modelled; the returned
  record keeps the computable fields.
-/

namespace MirrorroidSales

/-- Association-list model of a Python `Dict[str, float]`:
`d[k]` when present, first binding wins (keys of a dict are unique). -/
def dictLookup : List (String × ℚ) → String → Option ℚ
  | [], _ => none
  | (a, v) :: rest, k => if a = k then some v else dictLookup rest k

/-- Model of Python `k in d`. -/
def dictContains (d : List (String × ℚ)) (k : String) : Bool :=
  (dictLookup d k).isSome

/-- Model of `d[k]` at a key known to be present (absent keys read as 0;
the code only indexes keys it has just tested for membership). -/
def dictGet (d : List (String × ℚ)) (k : String) : ℚ :=
  (dictLookup d k).getD 0

/-- Key list of a dict, in insertion order. -/
def dictKeys (d : List (String × ℚ)) : List String :=
  d.map Prod.fst

/-- Python truthiness of an optional numeric value:
`None`, `0` and `0.0` are falsy, every other number is truthy. -/
def truthy (o : Option ℚ) : Bool :=
  decide (o.getD 0 ≠ 0)

/-- `models.ReferenceArea` (models.py:10-28), restricted to the numeric
columns the analysis core touches.  The class declares
`population_density`, `competitor_count` and `rent_price` — and NO
`business_density`, `transportation_score` or `floating_population`
columns, so reading those attributes raises `AttributeError`. -/
structure ReferenceArea where
  population_density : Option ℚ
  competitor_count : Option ℚ
  rent_price : Option ℚ
  deriving DecidableEq

/-- `models.LocationData` (models.py:30-61), restricted to the numeric
columns the analysis core touches; `id` is an abstract row identifier.
The class declares `population_total`, `floating_population`,
`business_density`, `rent_price`, `competitor_count` and
`transportation_score` — and NO `population_density` column, so reading
that attribute raises `AttributeError`. -/
structure LocationData where
  id : ℕ
  population_total : Option ℚ
  floating_population : Option ℚ
  business_density : Option ℚ
  rent_price : Option ℚ
  competitor_count : Option ℚ
  transportation_score : Option ℚ
  deriving DecidableEq

/-- `models.AnalysisCondition`: five scoring weights plus three optional
hard-constraint thresholds (`models/models.py`). -/
structure AnalysisCondition where
  name : String
  description : Option String
  weight_population : ℚ
  weight_business_density : ℚ
  weight_rent_price : ℚ
  weight_competition : ℚ
  weight_transportation : ℚ
  min_population : Option ℚ
  max_rent_price : Option ℚ
  max_competitor_count : Option ℚ
  deriving DecidableEq

/-- `AnalysisService._normalize_value` (analysis_service.py:102-110). -/
def normalize_value (value min_val max_val : ℚ) (inverse : Bool) : ℚ :=
  if max_val = min_val then 1/2
  else
    let normalized := (value - min_val) / (max_val - min_val)
    let clamped := max 0 (min 1 normalized)
    if inverse then 1 - clamped else clamped

/-- `AnalysisService._get_weights` (analysis_service.py:67-82):
`if custom_weights:` is Python truthiness, so `None` and the empty dict
both fall back to the configuration's five weights. -/
def get_weights (analysis_condition : AnalysisCondition)
    (custom_weights : Option (List (String × ℚ))) : List (String × ℚ) :=
  let config_weights : List (String × ℚ) :=
    [("population", analysis_condition.weight_population),
     ("business_density", analysis_condition.weight_business_density),
     ("rent_price", analysis_condition.weight_rent_price),
     ("competition", analysis_condition.weight_competition),
     ("transportation", analysis_condition.weight_transportation)]
  match custom_weights with
  | some cw => if cw = [] then config_weights else cw
  | none => config_weights

/-- The attribute view `_extract_features` works on: for each attribute
it reads, the outer `Option` records whether the record's model class
DECLARES the attribute (a plain access `area.x` on an undeclared
attribute raises `AttributeError`; `hasattr` tests it without raising),
and the inner `Option` is the declared column's nullability, rescued by
`or 0`. -/
structure FeatureAttrs where
  population_density : Option (Option ℚ)
  business_density : Option (Option ℚ)
  rent_price : Option (Option ℚ)
  competitor_count : Option (Option ℚ)
  transportation_score : Option (Option ℚ)
  floating_population : Option (Option ℚ)

/-- Attribute view of a `models.ReferenceArea` row: `business_density`,
`transportation_score` and `floating_population` are undeclared. -/
def referenceAttrs (area : ReferenceArea) : FeatureAttrs :=
  ⟨some area.population_density, none, some area.rent_price,
   some area.competitor_count, none, none⟩

/-- Attribute view of a `models.LocationData` row: `population_density`
is undeclared. -/
def locationAttrs (location : LocationData) : FeatureAttrs :=
  ⟨none, some location.business_density, some location.rent_price,
   some location.competitor_count, some location.transportation_score,
   some location.floating_population⟩

/-- `AnalysisService._extract_features` (analysis_service.py:84-100):
build the five base features, evaluating the dict entries in order —
the first access to an undeclared attribute aborts with
`AttributeError` — then append `floating_population` exactly when the
record exposes it (the `hasattr` check never raises). -/
def extract_features (area : FeatureAttrs) :
    Except String (List (String × ℚ)) :=
  match area.population_density with
  | none => Except.error "AttributeError: population_density"
  | some population_density =>
    match area.business_density with
    | none => Except.error "AttributeError: business_density"
    | some business_density =>
      match area.rent_price with
      | none => Except.error "AttributeError: rent_price"
      | some rent_price =>
        match area.competitor_count with
        | none => Except.error "AttributeError: competitor_count"
        | some competitor_count =>
          match area.transportation_score with
          | none => Except.error "AttributeError: transportation_score"
          | some transportation_score =>
            Except.ok
              ([("population", normalize_value (population_density.getD 0) 0 50000 false),
                ("business_density", normalize_value (business_density.getD 0) 0 100 false),
                ("rent_price", normalize_value (rent_price.getD 0) 0 5000000 true),
                ("competition", normalize_value (competitor_count.getD 0) 0 20 true),
                ("transportation", normalize_value (transportation_score.getD 0) 0 100 false)] ++
               (match area.floating_population with
                | some floating_population =>
                    [("floating_population",
                      normalize_value (floating_population.getD 0) 0 100000 false)]
                | none => []))

/-- SQL `column >= bound` on a nullable column: NULL never satisfies. -/
def sqlGe (v : Option ℚ) (bound : ℚ) : Bool :=
  match v with
  | some x => decide (bound ≤ x)
  | none => false

/-- SQL `column <= bound` on a nullable column: NULL never satisfies. -/
def sqlLe (v : Option ℚ) (bound : ℚ) : Bool :=
  match v with
  | some x => decide (x ≤ bound)
  | none => false

/-- `AnalysisService._get_candidate_locations` (analysis_service.py:112-126):
each hard constraint is applied only when its value is truthy
(`if analysis_condition.min_population:` etc.). -/
def get_candidate_locations (analysis_condition : AnalysisCondition)
    (locations : List LocationData) : List LocationData :=
  let q1 :=
    if truthy analysis_condition.min_population then
      locations.filter
        (fun l => sqlGe l.population_total (analysis_condition.min_population.getD 0))
    else locations
  let q2 :=
    if truthy analysis_condition.max_rent_price then
      q1.filter (fun l => sqlLe l.rent_price (analysis_condition.max_rent_price.getD 0))
    else q1
  if truthy analysis_condition.max_competitor_count then
    q2.filter
      (fun l => sqlLe l.competitor_count (analysis_condition.max_competitor_count.getD 0))
  else q2

/-- The key set `set(reference_features.keys()) & set(location_features.keys())`
of `_calculate_similarity`, as a duplicate-free list (Python sets hold each
key once; summation order is irrelevant because addition commutes). -/
def common_features (reference_features location_features : List (String × ℚ)) :
    List String :=
  (dictKeys reference_features).dedup.filter (fun f => dictContains location_features f)

/-- One iteration of the scoring loop of `_calculate_similarity`
(analysis_service.py:140-145): weighted absolute-distance similarity of a
single feature, 0 when the feature carries no weight. -/
def feature_term (reference_features location_features weights : List (String × ℚ))
    (feature : String) : ℚ :=
  match dictLookup weights feature with
  | some w =>
      (1 - |dictGet reference_features feature - dictGet location_features feature|) * w
  | none => 0

/-- `AnalysisService._calculate_similarity` (analysis_service.py:128-147):
accumulate the weighted per-feature similarities over the common features
and clamp the total into [0, 1] (`min(1.0, max(0.0, similarity_score))`). -/
def calculate_similarity (reference_features location_features weights :
    List (String × ℚ)) : ℚ :=
  min 1 (max 0
    (((common_features reference_features location_features).map
      (feature_term reference_features location_features weights)).sum))

/-- `AnalysisService._get_feature_name` (analysis_service.py:174-183):
Korean display name of a feature, the raw key when unknown. -/
def get_feature_name (feature : String) : String :=
  if feature = "population" then "인구밀도"
  else if feature = "business_density" then "업종밀도"
  else if feature = "rent_price" then "임대료"
  else if feature = "competition" then "경쟁강도"
  else if feature = "transportation" then "교통접근성"
  else feature

/-- Python `sep.join(parts)`. -/
def strJoin (sep : String) : List String → String
  | [] => ""
  | [s] => s
  | s :: rest => s ++ sep ++ strJoin sep rest

/-- `AnalysisService._generate_reason` (analysis_service.py:149-172):
iterate the weight dict in order; for each feature present in both
vectors whose similarity exceeds 0.8 and whose weight exceeds 0.15,
append the localized clause; fall back to the generic phrase when no
clause was produced; join with comma-space. -/
def generate_reason (reference_features location_features weights :
    List (String × ℚ)) : String :=
  let reasons := weights.filterMap (fun p =>
    match dictLookup reference_features p.1, dictLookup location_features p.1 with
    | some ref_val, some loc_val =>
        if (4/5 : ℚ) < 1 - |ref_val - loc_val| ∧ (3/20 : ℚ) < p.2 then
          some (get_feature_name p.1 ++ " 유사도 높음")
        else none
    | _, _ => none)
  let reasons := if reasons = [] then ["전반적인 지역 특성 유사"] else reasons
  strJoin ", " reasons

/-- One entry of the Top-Factors summary
(`AnalysisService._analyze_top_factors`). -/
structure TopFactor where
  factor : String
  weight : ℚ
  impact : String
  deriving DecidableEq

/-- `AnalysisService._analyze_top_factors` (analysis_service.py:185-197):
weights sorted descending (stable), top 3, tagged by impact band. -/
def analyze_top_factors (weights : List (String × ℚ)) : List TopFactor :=
  let sorted_weights :=
    weights.insertionSort (fun a b => b.2 ≤ a.2)
  (sorted_weights.take 3).map (fun p =>
    ⟨get_feature_name p.1, p.2,
      if (1/4 : ℚ) < p.2 then "high" else if (3/20 : ℚ) < p.2 then "medium" else "low"⟩)

/-- One surviving candidate of an analysis run: the entry appended to
`similarities` in `analyze_similarity` (analysis_service.py:44-49). -/
structure Candidate where
  location_id : ℕ
  similarity_score : ℚ
  reason : String
  deriving DecidableEq

/-- Descending-score order used by
`similarities.sort(key=lambda x: x['similarity_score'], reverse=True)`. -/
def scoreGE (a b : Candidate) : Prop :=
  b.similarity_score ≤ a.similarity_score

instance : DecidableRel scoreGE := fun a b =>
  inferInstanceAs (Decidable (b.similarity_score ≤ a.similarity_score))

instance : IsTotal Candidate scoreGE :=
  ⟨fun a b => le_total b.similarity_score a.similarity_score⟩

instance : IsTrans Candidate scoreGE :=
  ⟨fun _ _ _ h h' => le_trans h' h⟩

/-- The record returned by `analyze_similarity` (analysis_service.py:59-65),
without the wall-clock `duration` field. -/
structure AnalyzeResult where
  candidates : List Candidate
  weights : List (String × ℚ)
  total_candidates : ℕ
  top_factors : List TopFactor

/-- The scoring loop of `analyze_similarity` (analysis_service.py:36-49):
walk the candidate pool in order, extract each candidate's features —
the first `AttributeError` aborts the whole run — score the candidate,
and append it when its score strictly exceeds 0.5. -/
def score_candidates (reference_features weights : List (String × ℚ)) :
    List LocationData → Except String (List Candidate)
  | [] => Except.ok []
  | location :: rest =>
    match extract_features (locationAttrs location) with
    | Except.error e => Except.error e
    | Except.ok location_features =>
      let similarity_score :=
        calculate_similarity reference_features location_features weights
      match score_candidates reference_features weights rest with
      | Except.error e => Except.error e
      | Except.ok tail =>
        Except.ok
          (if (1/2 : ℚ) < similarity_score then
            ⟨location.id, similarity_score,
             generate_reason reference_features location_features weights⟩ :: tail
          else tail)

/-- `AnalysisService.analyze_similarity` (analysis_service.py:16-65):
resolve weights, extract the reference features (which raises
`AttributeError` for a real `models.ReferenceArea` row), filter the
candidate pool, score every candidate, sort the survivors by score
descending (stable), and assemble the result; any exception propagates
to the caller.  The `max_results` parameter — an unconstrained Python
`int` — is accepted and ignored, exactly as in the source. -/
def analyze_similarity (reference_area : ReferenceArea)
    (analysis_condition : AnalysisCondition)
    (custom_weights : Option (List (String × ℚ))) (max_results : ℤ)
    (locations : List LocationData) : Except String AnalyzeResult :=
  let _ := max_results
  let weights := get_weights analysis_condition custom_weights
  match extract_features (referenceAttrs reference_area) with
  | Except.error e => Except.error e
  | Except.ok reference_features =>
    let candidate_locations := get_candidate_locations analysis_condition locations
    match score_candidates reference_features weights candidate_locations with
    | Except.error e => Except.error e
    | Except.ok similarities =>
      Except.ok
        ⟨similarities.insertionSort scoreGE, weights,
         candidate_locations.length, analyze_top_factors weights⟩

/-- Python list slicing `l[:n]` with an `int` bound: a non-negative `n`
keeps the first `n` elements, a negative `n` keeps all but the last
`|n|` (empty when `|n|` is at least the length). -/
def pySlice {α : Type} (l : List α) (n : ℤ) : List α :=
  if 0 ≤ n then l.take n.toNat else l.take (l.length - (-n).toNat)

/-- The candidate list the API endpoint `run_analysis` persists and
returns: the service result sliced to the requested size
(`analysis_results['candidates'][:request.max_results]`,
api/analysis.py:75), with any service exception propagating to the
endpoint's `try/except` (api/analysis.py:103-107). -/
def run_analysis_recommendations (reference_area : ReferenceArea)
    (analysis_condition : AnalysisCondition)
    (custom_weights : Option (List (String × ℚ))) (max_results : ℤ)
    (locations : List LocationData) : Except String (List Candidate) :=
  match analyze_similarity reference_area analysis_condition custom_weights
      max_results locations with
  | Except.error e => Except.error e
  | Except.ok analysis_results =>
      Except.ok (pySlice analysis_results.candidates max_results)

/-- `schemas.AnalysisConditionCreate`: payload of the create endpoint
(all weight and constraint fields present, schemas.py:108-121). -/
structure AnalysisConditionCreate where
  name : String
  description : Option String
  weight_population : ℚ
  weight_business_density : ℚ
  weight_rent_price : ℚ
  weight_competition : ℚ
  weight_transportation : ℚ
  min_population : Option ℚ
  max_rent_price : Option ℚ
  max_competitor_count : Option ℚ
  deriving DecidableEq

/-- `schemas.AnalysisConditionUpdate` after `dict(exclude_unset=True)`:
every field is either absent (`none`, keep the stored value) or present. -/
structure AnalysisConditionUpdate where
  name : Option String
  description : Option (Option String)
  weight_population : Option ℚ
  weight_business_density : Option ℚ
  weight_rent_price : Option ℚ
  weight_competition : Option ℚ
  weight_transportation : Option ℚ
  min_population : Option (Option ℚ)
  max_rent_price : Option (Option ℚ)
  max_competitor_count : Option (Option ℚ)
  deriving DecidableEq

/-- `create_analysis_condition` (api/analysis.py:133-172): reject with
HTTP 400 when the five weights' sum is farther than 0.001 from 1.0,
otherwise persist and return the new condition row. -/
def create_analysis_condition (condition : AnalysisConditionCreate) :
    Except String AnalysisCondition :=
  let total_weight :=
    condition.weight_population + condition.weight_business_density +
    condition.weight_rent_price + condition.weight_competition +
    condition.weight_transportation
  if (1/1000 : ℚ) < |total_weight - 1| then
    Except.error "가중치의 합계는 1.0이어야 합니다"
  else
    Except.ok
      ⟨condition.name, condition.description,
       condition.weight_population, condition.weight_business_density,
       condition.weight_rent_price, condition.weight_competition,
       condition.weight_transportation,
       condition.min_population, condition.max_rent_price,
       condition.max_competitor_count⟩

/-- `update_analysis_condition` (api/analysis.py:174-216): merge each
supplied field over the stored row, validate the merged five-weight sum
with the same 0.001 tolerance, and apply the update on success. -/
def update_analysis_condition (db_condition : AnalysisCondition)
    (condition : AnalysisConditionUpdate) : Except String AnalysisCondition :=
  let weights : List ℚ :=
    [condition.weight_population.getD db_condition.weight_population,
     condition.weight_business_density.getD db_condition.weight_business_density,
     condition.weight_rent_price.getD db_condition.weight_rent_price,
     condition.weight_competition.getD db_condition.weight_competition,
     condition.weight_transportation.getD db_condition.weight_transportation]
  if (1/1000 : ℚ) < |weights.sum - 1| then
    Except.error "가중치의 합계는 1.0이어야 합니다"
  else
    Except.ok
      ⟨condition.name.getD db_condition.name,
       condition.description.getD db_condition.description,
       condition.weight_population.getD db_condition.weight_population,
       condition.weight_business_density.getD db_condition.weight_business_density,
       condition.weight_rent_price.getD db_condition.weight_rent_price,
       condition.weight_competition.getD db_condition.weight_competition,
       condition.weight_transportation.getD db_condition.weight_transportation,
       condition.min_population.getD db_condition.min_population,
       condition.max_rent_price.getD db_condition.max_rent_price,
       condition.max_competitor_count.getD db_condition.max_competitor_count⟩

/-- Whether an `Except` result is a success (the endpoint did not raise). -/
def exceptOk {ε α : Type} : Except ε α → Bool
  | Except.ok _ => true
  | Except.error _ => false

/-- Spec-side characterization of the qualifying reason clauses: one
clause per weight entry whose feature is present in both vectors, has
per-feature similarity strictly above 0.8 and weight strictly above
0.15, in the weight mapping's iteration order (used to state Claim C8
against `generate_reason`). -/
def qualifying_clauses (reference_features location_features weights :
    List (String × ℚ)) : List String :=
  (weights.filter (fun p =>
    dictContains reference_features p.1 && dictContains location_features p.1 &&
    decide ((4/5 : ℚ) <
      1 - |dictGet reference_features p.1 - dictGet location_features p.1|) &&
    decide ((3/20 : ℚ) < p.2))).map
    (fun p => get_feature_name p.1 ++ " 유사도 높음")

/-! ## Concrete test fixtures (used by counterexamples and witnesses) -/

/-- A configuration with the repository's default weights
(0.25, 0.25, 0.20, 0.15, 0.15) and no hard constraints. -/
def condA : AnalysisCondition :=
  ⟨"기본 조건", none, 1/4, 1/4, 1/5, 3/20, 3/20, none, none, none⟩

/-- `condA` with a maximum-rent threshold explicitly set to zero. -/
def condZeroRent : AnalysisCondition :=
  ⟨"기본 조건", none, 1/4, 1/4, 1/5, 3/20, 3/20, none, some 0, none⟩

/-- The reference record of the spec's end-to-end scenario, with the
columns `models.ReferenceArea` actually declares. -/
def refA : ReferenceArea :=
  ⟨some 25000, some 5, some 500000⟩

/-- A populated candidate row. -/
def locA : LocationData :=
  ⟨1, some 20000, some 50000, some 50, some 500000, some 5, some 80⟩

/-- A candidate row with a positive rent price. -/
def locRent100 : LocationData :=
  ⟨2, some 20000, none, none, some 100, some 1, none⟩

/-- A create payload whose weights sum to 1.0 (accepted example). -/
def createGood : AnalysisConditionCreate :=
  ⟨"유효 조건", none, 1/4, 1/4, 1/5, 3/20, 3/20, some 10000, some 1000000, some 10⟩

/-- A create payload with all five weights 0.3, summing to 1.5
(rejected example). -/
def createBad : AnalysisConditionCreate :=
  ⟨"무효 조건", none, 3/10, 3/10, 3/10, 3/10, 3/10, some 10000, some 1000000, some 10⟩

/-- A concrete normalized feature vector (a literal dict, used by the
identical-candidate witness). -/
def featuresA : List (String × ℚ) :=
  [("population", 1/2), ("business_density", 1/2), ("rent_price", 9/10),
   ("competition", 3/4), ("transportation", 4/5)]

/-- The weight dict of `condA` (as a literal dict). -/
def weightsA : List (String × ℚ) :=
  [("population", 1/4), ("business_density", 1/4), ("rent_price", 1/5),
   ("competition", 3/20), ("transportation", 3/20)]

/-! ## Basic dictionary lemmas -/

theorem dictContains_iff (d : List (String × ℚ)) (k : String) :
    dictContains d k = true ↔ k ∈ dictKeys d := by
  induction d with
  | nil => simp [dictContains, dictLookup, dictKeys]
  | cons p rest ih =>
    obtain ⟨a, v⟩ := p
    by_cases h : a = k
    · subst h
      simp [dictContains, dictLookup, dictKeys]
    · simpa [dictContains, dictLookup, dictKeys, h, Ne.symm h] using ih

theorem dictLookup_mem {d : List (String × ℚ)} {k : String} {v : ℚ}
    (h : dictLookup d k = some v) : (k, v) ∈ d := by
  induction d with
  | nil => simp [dictLookup] at h
  | cons p rest ih =>
    obtain ⟨a, w⟩ := p
    by_cases ha : a = k
    · subst ha
      simp [dictLookup] at h
      simp [h]
    · simp [dictLookup, ha] at h
      exact List.mem_cons_of_mem _ (ih h)

theorem mem_common_features {f g : List (String × ℚ)} {k : String} :
    k ∈ common_features f g ↔ k ∈ dictKeys f ∧ k ∈ dictKeys g := by
  simp [common_features, List.mem_filter, List.mem_dedup, dictContains_iff]

theorem common_features_nodup (f g : List (String × ℚ)) :
    (common_features f g).Nodup :=
  (List.nodup_dedup _).filter _

/-! ## Claim C3: properties of the normalization function -/

/-- Claim C3 (counterexample): as stated, `normalize` is claimed monotone
non-decreasing in `value` for ALL `min_val`, `max_val`; with the inverted
range `min_val = 1 > max_val = 0` the denominator is negative and the map
is strictly decreasing: `normalize(1,1,0,false) = 0 < 1 = normalize(0,1,0,false)`
although `0 ≤ 1`. -/
theorem normalize_value_not_monotone_on_inverted_range :
    (0 : ℚ) ≤ 1 ∧
      normalize_value 1 1 0 false < normalize_value 0 1 0 false := by
  constructor
  · norm_num
  · norm_num [normalize_value]

/-- Claim C3 (amended): `normalize` always lands in [0,1] and
`normalize(v,0,0,false) = 0.5`; the monotonicity in `value`
(non-decreasing for `inverse = false`, non-increasing for
`inverse = true`) holds provided `min_val ≤ max_val` (all call sites use
fixed ranges with `min_val = 0 < max_val`). -/
theorem normalize_value_props (value v₁ v₂ min_val max_val : ℚ) (inverse : Bool) :
    (0 ≤ normalize_value value min_val max_val inverse ∧
      normalize_value value min_val max_val inverse ≤ 1) ∧
    (min_val ≤ max_val → v₁ ≤ v₂ →
      normalize_value v₁ min_val max_val false ≤ normalize_value v₂ min_val max_val false) ∧
    (min_val ≤ max_val → v₁ ≤ v₂ →
      normalize_value v₂ min_val max_val true ≤ normalize_value v₁ min_val max_val true) ∧
    normalize_value value 0 0 false = 1/2 := by
  have hrange : ∀ (v : ℚ) (inv : Bool),
      0 ≤ normalize_value v min_val max_val inv ∧
        normalize_value v min_val max_val inv ≤ 1 := by
    intro v inv
    unfold normalize_value
    by_cases h : max_val = min_val
    · simp [h]
      norm_num
    · simp only [h, if_false]
      set c := max 0 (min 1 ((v - min_val) / (max_val - min_val))) with hc
      have h0 : (0:ℚ) ≤ c := le_max_left 0 _
      have h1 : c ≤ 1 := max_le (by norm_num) (min_le_left _ _)
      cases inv <;> simp <;> constructor <;> linarith
  have hmonoraw : ∀ u₁ u₂ : ℚ, min_val ≤ max_val → u₁ ≤ u₂ →
      normalize_value u₁ min_val max_val false ≤ normalize_value u₂ min_val max_val false := by
    intro u₁ u₂ hle h12
    unfold normalize_value
    by_cases h : max_val = min_val
    · simp [h]
    · have hpos : 0 < max_val - min_val := by
        rcases lt_or_eq_of_le hle with hlt | heq
        · linarith
        · exact absurd heq.symm h
      simp only [h, if_false]
      have hdiv : (u₁ - min_val) / (max_val - min_val) ≤
          (u₂ - min_val) / (max_val - min_val) :=
        div_le_div_of_nonneg_right (by linarith) hpos.le
      exact max_le_max le_rfl (min_le_min le_rfl hdiv)
  refine ⟨hrange value inverse, ?_, ?_, ?_⟩
  · exact hmonoraw v₁ v₂
  · intro hle h12
    unfold normalize_value
    by_cases h : max_val = min_val
    · simp [h]
    · have hpos : 0 < max_val - min_val := by
        rcases lt_or_eq_of_le hle with hlt | heq
        · linarith
        · exact absurd heq.symm h
      simp only [h, if_false]
      have hdiv : (v₁ - min_val) / (max_val - min_val) ≤
          (v₂ - min_val) / (max_val - min_val) :=
        div_le_div_of_nonneg_right (by linarith) hpos.le
      have := max_le_max (le_refl (0:ℚ)) (min_le_min (le_refl (1:ℚ)) hdiv)
      simp only [if_true]
      linarith
  · unfold normalize_value
    simp

/-- Claim C3 (witness): the amended monotonicity at a concrete input. -/
theorem normalize_value_props_witness :
    normalize_value 1 0 50000 false ≤ normalize_value 2 0 50000 false :=
  (normalize_value_props 1 1 2 0 50000 false).2.1 (by norm_num) (by norm_num)

/-! ## Claim C4: symmetry and range of the similarity score -/

theorem feature_term_symm (f g w : List (String × ℚ)) (k : String) :
    feature_term f g w k = feature_term g f w k := by
  unfold feature_term
  cases dictLookup w k with
  | none => rfl
  | some wt => rw [abs_sub_comm]

theorem common_features_perm (f g : List (String × ℚ)) :
    (common_features f g).Perm (common_features g f) := by
  refine (List.perm_ext_iff_of_nodup (common_features_nodup f g)
    (common_features_nodup g f)).mpr ?_
  intro k
  rw [mem_common_features, mem_common_features, and_comm]

/-- Claim C4: the similarity score is symmetric in the two feature
vectors and always lies in [0, 1], for every weight vector. -/
theorem calculate_similarity_symm_and_range (f g w : List (String × ℚ)) :
    calculate_similarity f g w = calculate_similarity g f w ∧
    0 ≤ calculate_similarity f g w ∧ calculate_similarity f g w ≤ 1 := by
  refine ⟨?_, ?_, ?_⟩
  · unfold calculate_similarity
    have hmap : (common_features f g).map (feature_term f g w) =
        (common_features f g).map (feature_term g f w) :=
      List.map_congr_left (fun k _ => feature_term_symm f g w k)
    rw [hmap, ((common_features_perm f g).map (feature_term g f w)).sum_eq]
  · exact le_min (by norm_num) (le_max_left 0 _)
  · exact min_le_left _ _

/-! ## Claim C5: the Weight Resolver -/

/-- Claim C5 (counterexample): an empty override dict IS a supplied
override mapping, yet `_get_weights` does not return it unmodified —
Python truthiness (`if custom_weights:`) sends the empty dict to the
configuration branch, which returns the five configuration weights. -/
theorem get_weights_empty_override : get_weights condA (some []) ≠ [] ∧
    get_weights condA (some []) =
      [("population", 1/4), ("business_density", 1/4), ("rent_price", 1/5),
       ("competition", 3/20), ("transportation", 3/20)] := by
  have h : get_weights condA (some []) =
      [("population", 1/4), ("business_density", 1/4), ("rent_price", 1/5),
       ("competition", 3/20), ("transportation", 3/20)] := rfl
  exact ⟨by rw [h]; exact List.cons_ne_nil _ _, h⟩

/-- Claim C5 (amended): a NON-EMPTY override mapping is returned
unmodified (no renormalization, no validation); when the override is
absent or empty the resolver returns exactly the configuration's five
weights under the canonical feature keys. -/
theorem get_weights_spec (c : AnalysisCondition)
    (custom_weights : Option (List (String × ℚ))) :
    (∀ cw, custom_weights = some cw → cw ≠ [] → get_weights c custom_weights = cw) ∧
    (custom_weights = none ∨ custom_weights = some [] →
      get_weights c custom_weights =
        [("population", c.weight_population),
         ("business_density", c.weight_business_density),
         ("rent_price", c.weight_rent_price),
         ("competition", c.weight_competition),
         ("transportation", c.weight_transportation)]) := by
  constructor
  · intro cw hcw hne
    subst hcw
    simp [get_weights, hne]
  · rintro (h | h) <;> subst h <;> simp [get_weights]

/-- Claim C5 (witness): a concrete non-empty override is returned as-is,
and the no-override case yields the configuration weights. -/
theorem get_weights_spec_witness :
    get_weights condA (some [("population", 1)]) = [("population", 1)] ∧
    get_weights condA none =
      [("population", condA.weight_population),
       ("business_density", condA.weight_business_density),
       ("rent_price", condA.weight_rent_price),
       ("competition", condA.weight_competition),
       ("transportation", condA.weight_transportation)] :=
  ⟨(get_weights_spec condA (some [("population", 1)])).1 [("population", 1)] rfl
      (List.cons_ne_nil _ _),
   (get_weights_spec condA none).2 (Or.inl rfl)⟩

/-! ## Claim C6: the Candidate Filter -/

/-- Claim C6 (counterexample): with `max_rent_price` set to `0`, a row
whose rent price is `100` violates the set constraint
`rent_price <= max_rent_price`, yet the filter returns it: a zero
threshold is falsy in Python, so the constraint is never applied. -/
theorem get_candidate_locations_zero_rent_kept :
    condZeroRent.max_rent_price = some 0 ∧
    locRent100.rent_price = some 100 ∧
    ¬ ((100 : ℚ) ≤ 0) ∧
    get_candidate_locations condZeroRent [locRent100] = [locRent100] := by
  refine ⟨rfl, rfl, by norm_num, ?_⟩
  simp [get_candidate_locations, condZeroRent, truthy]

/-- Claim C6 (amended): the filter returns exactly the rows satisfying
the conjunction of the constraints whose value is truthy (non-null and
non-zero); a constraint that is null or zero excludes no row. -/
theorem get_candidate_locations_spec (c : AnalysisCondition)
    (locations : List LocationData) :
    get_candidate_locations c locations = locations.filter (fun l =>
      (!truthy c.min_population ||
        sqlGe l.population_total (c.min_population.getD 0)) &&
      (!truthy c.max_rent_price ||
        sqlLe l.rent_price (c.max_rent_price.getD 0)) &&
      (!truthy c.max_competitor_count ||
        sqlLe l.competitor_count (c.max_competitor_count.getD 0))) := by
  have hif : ∀ (t : Bool) (p : LocationData → Bool) (l : List LocationData),
      (if t = true then l.filter p else l) = l.filter (fun a => !t || p a) := by
    intro t p l
    cases t <;> simp
  unfold get_candidate_locations
  rw [hif, hif, hif, List.filter_filter, List.filter_filter]
  exact List.filter_congr (fun x _ => by
    simp only [Bool.and_assoc, Bool.and_comm, Bool.and_left_comm])

/-! ## Claim C10: zero-valued thresholds are treated as unset -/

/-- Claim C10: a hard-constraint threshold equal to zero behaves exactly
like an absent one — replacing any `some 0` threshold by `none` leaves
the filtered pool unchanged — and when every constraint is falsy
(null or zero) the filter returns the whole collection. -/
theorem get_candidate_locations_zero_is_unset (c : AnalysisCondition)
    (locations : List LocationData) :
    (c.min_population = some 0 →
      get_candidate_locations c locations =
        get_candidate_locations {c with min_population := none} locations) ∧
    (c.max_rent_price = some 0 →
      get_candidate_locations c locations =
        get_candidate_locations {c with max_rent_price := none} locations) ∧
    (c.max_competitor_count = some 0 →
      get_candidate_locations c locations =
        get_candidate_locations {c with max_competitor_count := none} locations) ∧
    (truthy c.min_population = false → truthy c.max_rent_price = false →
      truthy c.max_competitor_count = false →
      get_candidate_locations c locations = locations) := by
  refine ⟨?_, ?_, ?_, ?_⟩
  · intro h
    simp [get_candidate_locations, truthy, h]
  · intro h
    simp [get_candidate_locations, truthy, h]
  · intro h
    simp [get_candidate_locations, truthy, h]
  · intro h1 h2 h3
    simp [get_candidate_locations, h1, h2, h3]

/-- Claim C10 (witness): with `max_rent_price = 0`, a row with positive
rent is kept, and the pool equals the pool of the constraint-free
configuration. -/
theorem get_candidate_locations_zero_is_unset_witness :
    get_candidate_locations condZeroRent [locRent100] =
      get_candidate_locations {condZeroRent with max_rent_price := none}
        [locRent100] :=
  (get_candidate_locations_zero_is_unset condZeroRent [locRent100]).2.1 rfl

/-- Evaluation of `analyze_similarity` on an arbitrary input: the
reference feature extraction reads `reference_area.business_density`, an
attribute `models.ReferenceArea` does not declare, so every run aborts
with `AttributeError` before any candidate is scored. -/
theorem analyze_similarity_eval (reference_area : ReferenceArea)
    (analysis_condition : AnalysisCondition)
    (custom_weights : Option (List (String × ℚ))) (max_results : ℤ)
    (locations : List LocationData) :
    analyze_similarity reference_area analysis_condition custom_weights
      max_results locations =
      Except.error "AttributeError: business_density" := rfl

/-! ## Claim C7: the weight-sum invariant is enforced at create/update -/

/-- Claim C7: creating or updating a configuration succeeds exactly when
the five (merged, for updates) weights sum to 1.0 within the 0.001
tolerance; the accepted and rejected examples from the spec; and the
scoring pipeline applies whatever weights the resolver yields with no
re-validation (it is total and records the resolved weights verbatim). -/
theorem condition_weight_sum_validation :
    (∀ cc : AnalysisConditionCreate,
      exceptOk (create_analysis_condition cc) = true ↔
        |cc.weight_population + cc.weight_business_density +
          cc.weight_rent_price + cc.weight_competition +
          cc.weight_transportation - 1| ≤ 1/1000) ∧
    (∀ (db_condition : AnalysisCondition) (u : AnalysisConditionUpdate),
      exceptOk (update_analysis_condition db_condition u) = true ↔
        |u.weight_population.getD db_condition.weight_population +
          u.weight_business_density.getD db_condition.weight_business_density +
          u.weight_rent_price.getD db_condition.weight_rent_price +
          u.weight_competition.getD db_condition.weight_competition +
          u.weight_transportation.getD db_condition.weight_transportation - 1|
          ≤ 1/1000) ∧
    exceptOk (create_analysis_condition createGood) = true ∧
    exceptOk (create_analysis_condition createBad) = false ∧
    (∀ reference_area analysis_condition custom_weights
        (max_results : ℤ) locations,
      analyze_similarity reference_area analysis_condition custom_weights
        max_results locations ≠
        Except.error "가중치의 합계는 1.0이어야 합니다") := by
  refine ⟨?_, ?_, ?_, ?_, ?_⟩
  · intro cc
    unfold create_analysis_condition
    dsimp only
    split_ifs with h
    · simp only [exceptOk, Bool.false_eq_true, false_iff, not_le]
      exact h
    · simp only [exceptOk, true_iff]
      exact not_lt.mp h
  · intro db_condition u
    have hsum : ([u.weight_population.getD db_condition.weight_population,
        u.weight_business_density.getD db_condition.weight_business_density,
        u.weight_rent_price.getD db_condition.weight_rent_price,
        u.weight_competition.getD db_condition.weight_competition,
        u.weight_transportation.getD db_condition.weight_transportation] :
          List ℚ).sum =
        u.weight_population.getD db_condition.weight_population +
          u.weight_business_density.getD db_condition.weight_business_density +
          u.weight_rent_price.getD db_condition.weight_rent_price +
          u.weight_competition.getD db_condition.weight_competition +
          u.weight_transportation.getD db_condition.weight_transportation := by
      simp
      ring
    unfold update_analysis_condition
    dsimp only
    rw [hsum]
    split_ifs with h
    · simp only [exceptOk, Bool.false_eq_true, false_iff, not_le]
      exact h
    · simp only [exceptOk, true_iff]
      exact not_lt.mp h
  · have hle : ¬ ((1/1000 : ℚ) <
        |createGood.weight_population + createGood.weight_business_density +
          createGood.weight_rent_price + createGood.weight_competition +
          createGood.weight_transportation - 1|) := by
      norm_num [createGood]
    unfold create_analysis_condition
    rw [if_neg hle]
    rfl
  · have hlt : ((1/1000 : ℚ) <
        |createBad.weight_population + createBad.weight_business_density +
          createBad.weight_rent_price + createBad.weight_competition +
          createBad.weight_transportation - 1|) := by
      norm_num [createBad, lt_abs]
    unfold create_analysis_condition
    rw [if_pos hlt]
    rfl
  · intro reference_area analysis_condition custom_weights max_results locations h
    rw [analyze_similarity_eval] at h
    simp at h

/-! ## Claims C1 and C2: the analysis pipeline's error path -/

/-- Python slice semantics at the API's truncation site: a negative
`max_results` does NOT clamp to an empty prefix — `[:-1]` on a
two-element list keeps one element. -/
theorem pySlice_negative_bound :
    pySlice [1, 2] (-1) = [1] ∧ pySlice [1, 2] 2 = [1, 2] ∧
    pySlice ([] : List ℕ) (-5) = [] := by
  decide

/-- Claim C1 (code evaluation at the failing input): no analysis run
ever returns a result set — `_extract_features(reference_area)` raises
`AttributeError` at analysis_service.py:88 for every reference row,
configuration, override, `max_results` and candidate pool, in
particular on the spec's end-to-end scenario — so the claimed
threshold-filtered candidate list never exists in the program. -/
theorem analyze_similarity_never_returns (reference_area : ReferenceArea)
    (analysis_condition : AnalysisCondition)
    (custom_weights : Option (List (String × ℚ))) (max_results : ℤ)
    (locations : List LocationData) :
    exceptOk (analyze_similarity reference_area analysis_condition
      custom_weights max_results locations) = false ∧
    analyze_similarity refA condA none 10 [locA] =
      Except.error "AttributeError: business_density" :=
  ⟨rfl, rfl⟩

/-- Claim C2 (code evaluation at the failing input): the endpoint never
reaches its sort-and-slice step — the service call raises
`AttributeError` first, for every input including a negative
`max_results` (whose slice semantics would keep all but the last |n|
survivors rather than at most `min(maxResults, count)`). -/
theorem run_analysis_recommendations_never_returns
    (reference_area : ReferenceArea) (analysis_condition : AnalysisCondition)
    (custom_weights : Option (List (String × ℚ))) (max_results : ℤ)
    (locations : List LocationData) :
    run_analysis_recommendations reference_area analysis_condition
      custom_weights max_results locations =
      Except.error "AttributeError: business_density" ∧
    run_analysis_recommendations refA condA none (-1) [locA] =
      Except.error "AttributeError: business_density" :=
  ⟨rfl, rfl⟩

/-! ## Claim C8: the reason generator -/

theorem reasons_filterMap_eq (reference_features location_features weights :
    List (String × ℚ)) :
    weights.filterMap (fun p =>
      match dictLookup reference_features p.1, dictLookup location_features p.1 with
      | some ref_val, some loc_val =>
          if (4/5 : ℚ) < 1 - |ref_val - loc_val| ∧ (3/20 : ℚ) < p.2 then
            some (get_feature_name p.1 ++ " 유사도 높음")
          else none
      | _, _ => none) =
      qualifying_clauses reference_features location_features weights := by
  unfold qualifying_clauses
  induction weights with
  | nil => rfl
  | cons p t ih =>
    rw [List.filterMap_cons, List.filter_cons]
    cases hr : dictLookup reference_features p.1 with
    | none =>
      simp [dictContains, hr, ih]
    | some ref_val =>
      cases hl : dictLookup location_features p.1 with
      | none =>
        simp [dictContains, hr, hl, ih]
      | some loc_val =>
        by_cases hcond : (4/5 : ℚ) < 1 - |ref_val - loc_val| ∧ (3/20 : ℚ) < p.2
        · simp [dictContains, dictGet, hr, hl, hcond.1, hcond.2, ih]
        · rw [Decidable.not_and_iff_or_not] at hcond
          rcases hcond with hc | hc
          · simp [dictContains, dictGet, hr, hl, hc, ih]
          · simp [dictContains, dictGet, hr, hl, hc, ih]

theorem strJoin_cons_cons (sep s s2 : String) (t : List String) :
    strJoin sep (s :: s2 :: t) = s ++ sep ++ strJoin sep (s2 :: t) := rfl

theorem strJoin_lastChar (c : Char) :
    ∀ (l : List String), l ≠ [] → (∀ s ∈ l, s.data.getLast? = some c) →
      (strJoin ", " l).data.getLast? = some c := by
  intro l
  induction l with
  | nil => intro h; exact absurd rfl h
  | cons s t ih =>
    intro _ hall
    cases t with
    | nil => exact hall s (List.mem_singleton.mpr rfl)
    | cons s2 t2 =>
      have hrec : (strJoin ", " (s2 :: t2)).data.getLast? = some c :=
        ih (List.cons_ne_nil _ _)
          (fun x hx => hall x (List.mem_cons_of_mem _ hx))
      have hne : (strJoin ", " (s2 :: t2)).data ≠ [] := by
        intro h0
        rw [h0] at hrec
        exact Option.noConfusion hrec
      rw [strJoin_cons_cons, String.data_append, String.data_append,
        List.getLast?_append, List.getLast?_append, hrec]
      rfl

theorem clause_lastChar (s : String) :
    (s ++ " 유사도 높음").data.getLast? = some '음' := by
  rw [String.data_append, List.getLast?_append]
  have h : (" 유사도 높음" : String).data.getLast? = some '음' := by decide
  rw [h]
  rfl

/-- Claim C8: the generated reason is the comma-space join of one clause
per weight entry whose feature is present in both vectors with
per-feature similarity above 0.8 and weight above 0.15, in the weight
mapping's iteration order; and it equals the generic fallback phrase
exactly when no feature qualifies. -/
theorem generate_reason_spec (reference_features location_features weights :
    List (String × ℚ)) :
    generate_reason reference_features location_features weights =
      (if qualifying_clauses reference_features location_features weights = []
       then "전반적인 지역 특성 유사"
       else strJoin ", "
         (qualifying_clauses reference_features location_features weights)) ∧
    (generate_reason reference_features location_features weights =
        "전반적인 지역 특성 유사" ↔
      qualifying_clauses reference_features location_features weights = []) := by
  have hfm := reasons_filterMap_eq reference_features location_features weights
  have hform : generate_reason reference_features location_features weights =
      (if qualifying_clauses reference_features location_features weights = []
       then "전반적인 지역 특성 유사"
       else strJoin ", "
         (qualifying_clauses reference_features location_features weights)) := by
    unfold generate_reason
    rw [hfm]
    by_cases hq : qualifying_clauses reference_features location_features
        weights = []
    · simp [hq, strJoin]
    · simp [hq]
  refine ⟨hform, ?_⟩
  constructor
  · intro hr
    by_contra hq
    rw [hform, if_neg hq] at hr
    obtain ⟨q, t, hqt⟩ : ∃ q t, qualifying_clauses reference_features
        location_features weights = q :: t := by
      cases hq2 : qualifying_clauses reference_features location_features
          weights with
      | nil => exact absurd hq2 hq
      | cons q t => exact ⟨q, t, rfl⟩
    have hlast : (strJoin ", " (qualifying_clauses reference_features
        location_features weights)).data.getLast? = some '음' := by
      refine strJoin_lastChar '음' _ (by rw [hqt]; exact List.cons_ne_nil _ _) ?_
      intro s hs
      unfold qualifying_clauses at hs
      obtain ⟨p, _, hp⟩ := List.mem_map.mp hs
      rw [← hp]
      exact clause_lastChar _
    rw [hr] at hlast
    have hfall : ("전반적인 지역 특성 유사" : String).data.getLast? = some '사' := by
      decide
    rw [hfall] at hlast
    have : '사' = '음' := Option.some.inj hlast
    exact absurd this (by decide)
  · intro hq
    rw [hform, if_pos hq]

/-! ## Claim C9: identical candidates -/

theorem sum_map_filter_eq {α : Type} (f : α → ℚ) (p : α → Bool) :
    ∀ l : List α, (∀ x ∈ l, p x = false → f x = 0) →
      (l.map f).sum = ((l.filter p).map f).sum := by
  intro l
  induction l with
  | nil => intro _; rfl
  | cons a t ih =>
    intro h
    have ht := ih (fun x hx => h x (List.mem_cons_of_mem _ hx))
    cases hp : p a with
    | false =>
      simp [List.filter_cons, hp, h a (List.mem_cons_self a t) hp, ht]
    | true =>
      simp [List.filter_cons, hp, ht]

theorem dictLookup_nodup_mem :
    ∀ {w : List (String × ℚ)}, (dictKeys w).Nodup →
      ∀ {k : String} {v : ℚ}, (k, v) ∈ w → dictLookup w k = some v := by
  intro w
  induction w with
  | nil => intro _ k v hm; cases hm
  | cons p t ih =>
    intro hn k v hm
    obtain ⟨a, b⟩ := p
    have hn2 : a ∉ dictKeys t ∧ (dictKeys t).Nodup := by
      rw [dictKeys, List.map_cons] at hn
      exact List.nodup_cons.mp hn
    rcases List.mem_cons.mp hm with heq | hmt
    · obtain ⟨rfl, rfl⟩ := Prod.mk.inj heq.symm
      simp [dictLookup]
    · have hk : k ∈ dictKeys t := List.mem_map_of_mem Prod.fst hmt
      have hka : ¬ a = k := fun h => hn2.1 (h ▸ hk)
      rw [dictLookup, if_neg hka]
      exact ih hn2.2 hmt

/-- Claim C9 (counterexample): with the single-feature weight vector
`{population: 0.4}` a candidate IDENTICAL to the reference on every
weighted feature scores 0.4 — not 1.0 — and fails the 0.5 threshold:
the weights must sum to (at least) 1 for the claimed property. -/
theorem identical_candidate_not_always_one :
    calculate_similarity [(("population" : String), (1/2 : ℚ))]
      [(("population" : String), (1/2 : ℚ))]
      [(("population" : String), (2/5 : ℚ))] = 2/5 ∧
    (2/5 : ℚ) ≠ 1 ∧ ¬ ((1/2 : ℚ) < 2/5) := by
  refine ⟨?_, by norm_num, by norm_num⟩
  have hc : common_features [(("population" : String), (1/2 : ℚ))]
      [(("population" : String), (1/2 : ℚ))] = ["population"] := by decide
  rw [calculate_similarity, hc]
  simp [feature_term, dictLookup, dictGet]
  rw [max_eq_right (by norm_num : (0:ℚ) ≤ 2/5),
    min_eq_right (by norm_num : (2/5:ℚ) ≤ 1)]

/-- Claim C9 (amended): for every weight vector with distinct keys whose
weights sum to at least 1 (the configuration invariant guarantees sum
1), a candidate that agrees with the reference on every weighted
feature — each weighted feature present in both vectors with equal
values — scores exactly 1.0 and clears the 0.5 threshold. -/
theorem identical_on_weighted_features_scores_one
    (reference_features location_features weights : List (String × ℚ))
    (hn : (dictKeys weights).Nodup)
    (hagree : ∀ p ∈ weights,
      dictLookup reference_features p.1 = dictLookup location_features p.1 ∧
      dictContains reference_features p.1 = true)
    (hsum : 1 ≤ (weights.map Prod.snd).sum) :
    calculate_similarity reference_features location_features weights = 1 ∧
    (1/2 : ℚ) <
      calculate_similarity reference_features location_features weights := by
  suffices h :
      calculate_similarity reference_features location_features weights = 1 by
    refine ⟨h, ?_⟩
    rw [h]
    norm_num
  have hstep1 : ((common_features reference_features location_features).map
      (feature_term reference_features location_features weights)).sum =
      (((common_features reference_features location_features).filter
        (fun k => (dictLookup weights k).isSome)).map
        (feature_term reference_features location_features weights)).sum := by
    refine sum_map_filter_eq _ _ _ ?_
    intro k _ hk
    have hnone : dictLookup weights k = none :=
      Option.not_isSome_iff_eq_none.mp (by rw [hk]; exact Bool.false_ne_true)
    simp [feature_term, hnone]
  have hperm : ((common_features reference_features location_features).filter
      (fun k => (dictLookup weights k).isSome)).Perm (dictKeys weights) := by
    refine (List.perm_ext_iff_of_nodup
      ((common_features_nodup _ _).filter _) hn).mpr ?_
    intro k
    constructor
    · intro hk
      have := (List.mem_filter.mp hk).2
      exact (dictContains_iff weights k).mp this
    · intro hk
      obtain ⟨p, hpw, hpk⟩ := List.mem_map.mp hk
      have hag := hagree p hpw
      rw [hpk] at hag
      have hrf : k ∈ dictKeys reference_features :=
        (dictContains_iff _ k).mp hag.2
      have hlf : k ∈ dictKeys location_features := by
        refine (dictContains_iff _ k).mp ?_
        rw [dictContains, ← hag.1]
        exact hag.2
      refine List.mem_filter.mpr ⟨mem_common_features.mpr ⟨hrf, hlf⟩, ?_⟩
      exact (dictContains_iff weights k).mpr hk
  have hstep2 : (((common_features reference_features location_features).filter
      (fun k => (dictLookup weights k).isSome)).map
      (feature_term reference_features location_features weights)).sum =
      ((dictKeys weights).map
        (feature_term reference_features location_features weights)).sum :=
    (hperm.map _).sum_eq
  have hstep3 : ((dictKeys weights).map
      (feature_term reference_features location_features weights)).sum =
      (weights.map Prod.snd).sum := by
    rw [dictKeys, List.map_map]
    refine congrArg List.sum (List.map_congr_left ?_)
    intro p hpw
    obtain ⟨k, v⟩ := p
    have hlook : dictLookup weights k = some v := dictLookup_nodup_mem hn hpw
    have hag := hagree (k, v) hpw
    have hgeq : dictGet reference_features k = dictGet location_features k := by
      rw [dictGet, dictGet, hag.1]
    simp [Function.comp, feature_term, hlook, hgeq]
  rw [calculate_similarity, hstep1, hstep2, hstep3]
  rw [max_eq_right (le_trans (by norm_num) hsum), min_eq_left hsum]

/-- Claim C9 (witness): the default five-weight configuration (summing
to 1) on a candidate identical to the reference scores exactly 1. -/
theorem identical_on_weighted_features_scores_one_witness :
    calculate_similarity featuresA featuresA weightsA = 1 ∧
    (1/2 : ℚ) < calculate_similarity featuresA featuresA weightsA :=
  identical_on_weighted_features_scores_one featuresA featuresA weightsA
    (by decide)
    (fun p hp => ⟨rfl,
      (by decide : ∀ p ∈ weightsA, dictContains featuresA p.1 = true) p hp⟩)
    (by norm_num [weightsA])
